import Mathlib

/-!
Shallow embedding of the ATEM_ESP32 protocol core (src/library/src/ATEM.cpp).

Bytes are modelled as `Nat` values below 256 inside `List Nat` buffers; the
16-bit counters (`_session_id`, `_local_packet_id`, `_remote_packet_id`) are
`Nat` reduced modulo 2^16 where the C++ code overflows.  The UDP transport and
the overridable callback methods are modelled as an emitted event list: each
state-mutating member function becomes a pure function `State -> State x List Event`.
`Event.ackSent n` stands for a call to `ATEM::sendAck(n)` (which transmits the
bytes `ackPacket session n`); `Event.frameSent bs` stands for a direct
`_udp.write` of the bytes `bs`.
-/

namespace ATEM

/-- `CONNECTION_TIMEOUT` from ATEM.h (milliseconds). -/
def CONNECTION_TIMEOUT : Nat := 5000

/-- `HEARTBEAT_INTERVAL` from ATEM.h (milliseconds). -/
def HEARTBEAT_INTERVAL : Nat := 500

/-- `MAX_PACKET_SIZE` from ATEM.h. -/
def MAX_PACKET_SIZE : Nat := 1500

/-- `HEADER_SIZE` from ATEM.h. -/
def HEADER_SIZE : Nat := 12

/-- `MAX_RETRANSMIT_PACKETS` from ATEM.h. -/
def MAX_RETRANSMIT_PACKETS : Nat := 100

/-- `FLAG_ACK_REQUEST` from ATEM.h. -/
def FLAG_ACK_REQUEST : Nat := 1

/-- `ATEMConnectionState` from ATEM.h. -/
inductive ConnState where
  | disconnected
  | connecting
  | connected
  | error
deriving DecidableEq, Repr

/-- `ATEM::StoredPacket` from ATEM.h: one slot of the retransmission ring
buffer.  The C `length` field is `data.length` here. -/
structure StoredPacket where
  in_use : Bool
  packet_id : Nat
  data : List Nat
  timestamp : Nat
deriving DecidableEq, Repr

/-- The mutable member fields of the `ATEM` class that the protocol logic
touches (ATEM.h, private section). -/
structure State where
  connection_state : ConnState
  session_id : Nat
  local_packet_id : Nat
  remote_packet_id : Nat
  last_heartbeat : Nat
  last_received : Nat
  connection_start_time : Nat
  state_dirty : Bool
  program_input : Nat
  preview_input : Nat
  sent_packets : List StoredPacket
  packet_buffer_index : Nat
  udp_initialized : Bool
deriving DecidableEq, Repr

/-- Observable effects: UDP sends and the overridable `on*` callback hooks. -/
inductive Event where
  | frameSent (bytes : List Nat)
  | ackSent (packet_id : Nat)
  | connectionStateChanged (s : ConnState)
  | programInputChanged (input : Nat)
  | previewInputChanged (input : Nat)
  | stateChanged
deriving DecidableEq, Repr

/-- The state set up by the `ATEM::ATEM()` constructor (retransmission slots
all cleared, session id `0x53AB`, local packet id 768). -/
def constructedState : State where
  connection_state := ConnState.disconnected
  session_id := 0x53AB
  local_packet_id := 768
  remote_packet_id := 0
  last_heartbeat := 0
  last_received := 0
  connection_start_time := 0
  state_dirty := false
  program_input := 0
  preview_input := 0
  sent_packets := List.replicate MAX_RETRANSMIT_PACKETS
    { in_use := false, packet_id := 0, data := [], timestamp := 0 }
  packet_buffer_index := 0
  udp_initialized := false

/-- 32-bit unsigned subtraction `a - b` as computed on `unsigned long`
millisecond timestamps (ESP32: 32 bits). -/
def usub32 (a b : Nat) : Nat :=
  (a % 4294967296 + 4294967296 - b % 4294967296) % 4294967296

/-- The 12 bytes built by `ATEM::sendAck` (ATEM.cpp:739-779): AckReply flag
with length 12 in bytes 0-1, session id in bytes 2-3, the acknowledged packet
id in bytes 4-5, everything from byte 6 on zero. -/
def ackPacket (session_id packet_id : Nat) : List Nat :=
  [0x80, 0x0C,
   session_id / 256 % 256, session_id % 256,
   packet_id / 256 % 256, packet_id % 256,
   0x00, 0x00,
   0, 0, 0, 0]

/-- The 12 bytes built by `ATEM::sendHeartbeat` (ATEM.cpp:690-722):
`(FLAG_ACK_REQUEST << 11) | 12` in bytes 0-1, session id in bytes 2-3, local
packet id in bytes 10-11. -/
def heartbeatPacket (session_id local_packet_id : Nat) : List Nat :=
  [(FLAG_ACK_REQUEST <<< 11 ||| 12) / 256 % 256, (FLAG_ACK_REQUEST <<< 11 ||| 12) % 256,
   session_id / 256 % 256, session_id % 256,
   0, 0, 0, 0, 0, 0,
   local_packet_id / 256 % 256, local_packet_id % 256]

/-- The 24 bytes built by `ATEM::changeProgramInput` (ATEM.cpp:823-898):
header with AckRequest flag and length 24, session id at 2-3, local packet id
at 10-11, then the 12-byte command block `00 0C 00 00 'C' 'P' 'g' 'I'` and the
input id as a 4-byte big-endian value. -/
def changeProgramInputPacket (session_id local_packet_id input : Nat) : List Nat :=
  [(FLAG_ACK_REQUEST <<< 11 ||| 24) / 256 % 256, (FLAG_ACK_REQUEST <<< 11 ||| 24) % 256,
   session_id / 256 % 256, session_id % 256,
   0, 0, 0, 0, 0, 0,
   local_packet_id / 256 % 256, local_packet_id % 256,
   0x00, 0x0C, 0x00, 0x00,
   0x43, 0x50, 0x67, 0x49,
   0x00, 0x00, input / 256 % 256, input % 256]

/-- The literal 20-byte HELLO frame sent by `ATEM::connect` (ATEM.cpp:188-191). -/
def helloPacket : List Nat :=
  [0x10, 0x14, 0x53, 0xab, 0x00, 0x00, 0x00, 0x00, 0x00, 0x3a,
   0x00, 0x00, 0x01, 0x00, 0x00, 0x00, 0x00, 0x00, 0x00, 0x00]

/-- `ATEM::storePacketForRetransmission` (ATEM.cpp:1438-1461): oversized
packets are dropped, otherwise the slot at `_packet_buffer_index` is
overwritten and the index advances circularly. -/
def storePacketForRetransmission (s : State) (packet_id : Nat) (data : List Nat)
    (now : Nat) : State :=
  if data.length > MAX_PACKET_SIZE then s
  else
    { s with
      sent_packets := s.sent_packets.set s.packet_buffer_index
        { in_use := true, packet_id := packet_id, data := data, timestamp := now }
      packet_buffer_index := (s.packet_buffer_index + 1) % MAX_RETRANSMIT_PACKETS }

/-- `ATEM::sendHeartbeat` (ATEM.cpp:690-722): build the heartbeat frame, store
it for retransmission, send it, increment the 16-bit local packet id. -/
def sendHeartbeat (s : State) (now : Nat) : State × List Event :=
  let packet := heartbeatPacket s.session_id s.local_packet_id
  let s1 := storePacketForRetransmission s s.local_packet_id packet now
  ({ s1 with local_packet_id := (s1.local_packet_id + 1) % 65536 },
   [Event.frameSent packet])

/-- `ATEM::changeProgramInput` (ATEM.cpp:823-898), success path: refuse when
not connected; otherwise build the 24-byte CPgI frame, store it for
retransmission, send it, increment the 16-bit local packet id. -/
def changeProgramInput (s : State) (input : Nat) (now : Nat) : State × List Event :=
  if s.connection_state ≠ ConnState.connected then (s, [])
  else
    let packet := changeProgramInputPacket s.session_id s.local_packet_id input
    let s1 := storePacketForRetransmission s s.local_packet_id packet now
    ({ s1 with local_packet_id := (s1.local_packet_id + 1) % 65536 },
     [Event.frameSent packet])

/-- The scan loop of `ATEM::handleRetransmitRequest` (ATEM.cpp:1483-1513):
walk the slots in array order with a `found_start` flag; a slot that is not in
use is skipped; the flag becomes true at a slot whose `packet_id` equals
`from_packet_id`; every in-use slot from that point on (in array order) is
resent. -/
def retransmitResends (from_packet_id : Nat) : Bool → List StoredPacket → List (List Nat)
  | _, [] => []
  | found_start, slot :: rest =>
    if !slot.in_use then retransmitResends from_packet_id found_start rest
    else
      let found := found_start || (slot.packet_id == from_packet_id)
      if found then slot.data :: retransmitResends from_packet_id found rest
      else retransmitResends from_packet_id found rest

/-- `ATEM::handleRetransmitRequest` (ATEM.cpp:1471-1562): resend according to
the scan loop; in both the found and the not-found branch finish with exactly
one `sendAck(sequence_to_ack)`. -/
def handleRetransmitRequest (s : State) (from_packet_id sequence_to_ack : Nat) :
    State × List Event :=
  (s, (retransmitResends from_packet_id false s.sent_packets).map Event.frameSent
      ++ [Event.ackSent sequence_to_ack])

/-- The iteration structure of `ATEM::processInitialPayload` (ATEM.cpp:567-613):
the list of `(offset, cmd_length)` command blocks the loop visits.  The loop
stops when fewer than 8 bytes remain, when a declared length is below 8, or
when a declared length would extend past the end of the buffer. -/
def commandBlocks (data : List Nat) (offset : Nat) : List (Nat × Nat) :=
  if h1 : offset + 8 ≤ data.length then
    if h2 : data.getD offset 0 * 256 + data.getD (offset + 1) 0 < 8 then []
    else if h3 : data.length < offset + (data.getD offset 0 * 256 + data.getD (offset + 1) 0) then []
    else (offset, data.getD offset 0 * 256 + data.getD (offset + 1) 0) ::
      commandBlocks data (offset + (data.getD offset 0 * 256 + data.getD (offset + 1) 0))
  else []
termination_by data.length - offset
decreasing_by omega

/-- `ATEM::processProgramInput` (ATEM.cpp:627-643): the input id is the
big-endian value of bytes 2-3 of the command body. -/
def processProgramInput (s : State) (data : List Nat) : State × List Event :=
  if data.length < 4 then (s, [])
  else if data.getD 2 0 * 256 + data.getD 3 0 ≠ s.program_input then
    ({ s with program_input := data.getD 2 0 * 256 + data.getD 3 0, state_dirty := true },
     [Event.programInputChanged (data.getD 2 0 * 256 + data.getD 3 0)])
  else (s, [])

/-- `ATEM::processPreviewInput` (ATEM.cpp:657-673). -/
def processPreviewInput (s : State) (data : List Nat) : State × List Event :=
  if data.length < 4 then (s, [])
  else if data.getD 2 0 * 256 + data.getD 3 0 ≠ s.preview_input then
    ({ s with preview_input := data.getD 2 0 * 256 + data.getD 3 0, state_dirty := true },
     [Event.previewInputChanged (data.getD 2 0 * 256 + data.getD 3 0)])
  else (s, [])

/-- The body of one iteration of `ATEM::processInitialPayload`: dispatch on
the 4-byte command name at `offset + 4` (`PrgI` = 50 72 67 49, `PrvI` =
50 72 76 49); unknown tags are skipped. -/
def processCommandAt (data : List Nat) (s : State) (blk : Nat × Nat) :
    State × List Event :=
  if (data.drop (blk.1 + 4)).take 4 = [0x50, 0x72, 0x67, 0x49] then
    processProgramInput s ((data.drop (blk.1 + 8)).take (blk.2 - 8))
  else if (data.drop (blk.1 + 4)).take 4 = [0x50, 0x72, 0x76, 0x49] then
    processPreviewInput s ((data.drop (blk.1 + 8)).take (blk.2 - 8))
  else (s, [])

/-- `ATEM::processInitialPayload` (ATEM.cpp:567-613): run the loop body over
the command blocks the loop visits, in order, accumulating the fired hooks. -/
def processInitialPayload (s : State) (data : List Nat) : State × List Event :=
  (commandBlocks data 0).foldl
    (fun acc blk =>
      ((processCommandAt data acc.1 blk).1, acc.2 ++ (processCommandAt data acc.1 blk).2))
    (s, [])

/-- `ATEM::parsePacket` (ATEM.cpp:433-551).  `now` is the value `millis()`
returns during this call. -/
def parsePacket (s : State) (now : Nat) (buffer : List Nat) : State × List Event :=
  if buffer.length < HEADER_SIZE then (s, [])
  else
    let flags := buffer.getD 0 0 / 8
    let session_id := buffer.getD 2 0 * 256 + buffer.getD 3 0
    let remote_packet_id := buffer.getD 10 0 * 256 + buffer.getD 11 0
    if s.connection_state = ConnState.connecting ∧ flags &&& 2 ≠ 0 then
      let s1 := { s with
        session_id := session_id
        connection_state := ConnState.connected
        last_heartbeat := now }
      if remote_packet_id > 0 then
        ({ s1 with remote_packet_id := remote_packet_id },
         [Event.ackSent remote_packet_id])
      else (s1, [])
    else
      let s1 :=
        if s.connection_state = ConnState.connected ∧ session_id ≠ s.session_id then
          { s with session_id := session_id }
        else s
      let s2 :=
        if remote_packet_id > s1.remote_packet_id then
          { s1 with remote_packet_id := remote_packet_id }
        else s1
      if flags &&& 8 ≠ 0 then
        let from_packet_id := buffer.getD 6 0 * 256 + buffer.getD 7 0
        handleRetransmitRequest s2 from_packet_id remote_packet_id
      else
        let ackEvents :=
          if HEADER_SIZE < buffer.length ∨ flags &&& 1 ≠ 0 then
            [Event.ackSent remote_packet_id]
          else []
        let r :=
          if HEADER_SIZE < buffer.length then
            processInitialPayload s2 (buffer.drop HEADER_SIZE)
          else (s2, [])
        (r.1, ackEvents ++ r.2)

/-- `ATEM::processIncomingPacket` (ATEM.cpp:367-414): `datagram` is the bytes
the single non-blocking receive returned, if any; packets shorter than the
12-byte header are dropped before `_last_received` is updated. -/
def processIncomingPacket (s : State) (now : Nat) (datagram : Option (List Nat)) :
    State × List Event :=
  match datagram with
  | none => (s, [])
  | some buffer =>
    if buffer.length < HEADER_SIZE then (s, [])
    else parsePacket { s with last_received := now } now buffer

/-- `ATEM::runLoop` (ATEM.cpp:329-358): one tick — one receive attempt,
heartbeat scheduling, inbound-silence timeout detection, dirty-state
notification. -/
def runLoop (s : State) (now : Nat) (datagram : Option (List Nat)) :
    State × List Event :=
  let r1 := processIncomingPacket s now datagram
  let r2 :=
    if r1.1.connection_state = ConnState.connected ∧
        usub32 now r1.1.last_heartbeat > HEARTBEAT_INTERVAL then
      let rh := sendHeartbeat r1.1 now
      ({ rh.1 with last_heartbeat := now }, rh.2)
    else (r1.1, [])
  let r3 :=
    if r2.1.connection_state = ConnState.connected ∧
        usub32 now r2.1.last_received > CONNECTION_TIMEOUT then
      ({ r2.1 with connection_state := ConnState.error },
       [Event.connectionStateChanged ConnState.error])
    else (r2.1, [])
  let r4 :=
    if r3.1.state_dirty then
      ({ r3.1 with state_dirty := false }, [Event.stateChanged])
    else (r3.1, [])
  (r4.1, r1.2 ++ r2.2 ++ r3.2 ++ r4.2)

/-- `ATEM::disconnect` (ATEM.cpp:290-298): the state write and the hook happen
only when the current state is `ATEM_CONNECTED`; `_udp.stop()` and the
`_udp_initialized` reset happen unconditionally. -/
def disconnect (s : State) : State × List Event :=
  if s.connection_state = ConnState.connected then
    ({ s with
        connection_state := ConnState.disconnected
        udp_initialized := false },
     [Event.connectionStateChanged ConnState.disconnected])
  else ({ s with udp_initialized := false }, [])

/-- The send phase of `ATEM::connect` (ATEM.cpp:179-241): set the state to
`ATEM_CONNECTING`, record the start time, transmit the literal 20-byte HELLO
frame once (success path), then reset `_local_packet_id` to 1. -/
def connectSend (s : State) (now : Nat) : State × List Event :=
  ({ s with
      connection_state := ConnState.connecting
      connection_start_time := now
      local_packet_id := 1 },
   [Event.frameSent helloPacket])

/-- One iteration of the bounded wait loop of `ATEM::connect`
(ATEM.cpp:247-266): one receive attempt; if the state has become
`ATEM_CONNECTED`, the connection-state-changed hook fires and the loop exits. -/
def connectPollStep (s : State) (now : Nat) (datagram : Option (List Nat)) :
    State × List Event :=
  let r := processIncomingPacket s now datagram
  if r.1.connection_state = ConnState.connected then
    (r.1, r.2 ++ [Event.connectionStateChanged ConnState.connected])
  else (r.1, r.2)

/-- Specification helper: the index of the first ring-buffer slot that is in
use and stores the requested sequence, if any. -/
def firstMatchIdx (from_packet_id : Nat) : List StoredPacket → Option Nat
  | [] => none
  | slot :: rest =>
    if slot.in_use && slot.packet_id == from_packet_id then some 0
    else (firstMatchIdx from_packet_id rest).map (· + 1)

/-- Recognizer for ACK emissions (calls to `ATEM::sendAck`). -/
def isAckEvent : Event → Bool
  | Event.ackSent _ => true
  | _ => false

/-- Recognizer for the per-input hooks fired by command processing. -/
def isInputEvent : Event → Bool
  | Event.programInputChanged _ => true
  | Event.previewInputChanged _ => true
  | _ => false

/-- C1 counterexample state: slot 0 retains sequence 101, slot 1 retains
sequence 2, the remaining 98 slots are free (mirrors a ring buffer after
wraparound, where a newer sequence sits at a smaller index). -/
def retransmitCexState : State :=
  { constructedState with
    connection_state := ConnState.connected
    sent_packets :=
      { in_use := true, packet_id := 101, data := [1, 2, 3], timestamp := 0 } ::
      { in_use := true, packet_id := 2, data := [9], timestamp := 0 } ::
      List.replicate 98 { in_use := false, packet_id := 0, data := [], timestamp := 0 } }

/-- C3 failing input: the constructed state moved to `ATEM_ERROR`. -/
def errorState : State :=
  { constructedState with connection_state := ConnState.error }

/-- A connected client state used for concrete witnesses. -/
def connectedState : State :=
  { constructedState with connection_state := ConnState.connected }

/-- C6 counterexample state: a client in `ATEM_CONNECTING` whose tracker
already reads 500.  This is reachable: `ATEM::connect` does not reset
`_remote_packet_id`, and the forward-only update at ATEM.cpp:518-521 runs in
every state, so a flag-less frame reporting sequence 500 during the wait loop
produces exactly this state. -/
def handshakeDecreaseState : State :=
  { constructedState with
    connection_state := ConnState.connecting
    remote_packet_id := 500 }

theorem retransmitResends_found (from_packet_id : Nat) (slots : List StoredPacket) :
    retransmitResends from_packet_id true slots =
      (slots.filter (fun sl => sl.in_use)).map (fun sl => sl.data) := by
  induction slots with
  | nil => rfl
  | cons slot rest ih =>
    by_cases h : slot.in_use
    · simp [retransmitResends, h, ih]
    · simp [retransmitResends, h, ih]

theorem retransmitResends_eq (from_packet_id : Nat) (slots : List StoredPacket) :
    retransmitResends from_packet_id false slots =
      match firstMatchIdx from_packet_id slots with
      | none => []
      | some i => ((slots.drop i).filter (fun sl => sl.in_use)).map (fun sl => sl.data) := by
  induction slots with
  | nil => rfl
  | cons slot rest ih =>
    by_cases hu : slot.in_use
    · by_cases hm : slot.packet_id = from_packet_id
      · simp [retransmitResends, firstMatchIdx, hu, hm, retransmitResends_found]
      · have hpred : (slot.in_use && slot.packet_id == from_packet_id) = false := by
          simp [hu, hm]
        have hb : (slot.packet_id == from_packet_id) = false := beq_eq_false_iff_ne.mpr hm
        rw [show retransmitResends from_packet_id false (slot :: rest)
              = retransmitResends from_packet_id false rest by
            simp [retransmitResends, hu, hb]]
        rw [ih]
        simp only [firstMatchIdx, hpred, Bool.false_eq_true, if_false]
        cases h : firstMatchIdx from_packet_id rest with
        | none => simp
        | some i => simp
    · rw [show retransmitResends from_packet_id false (slot :: rest)
            = retransmitResends from_packet_id false rest by
          simp [retransmitResends, hu]]
      rw [ih]
      have hpred : (slot.in_use && slot.packet_id == from_packet_id) = false := by
        simp [hu]
      simp only [firstMatchIdx, hpred, Bool.false_eq_true, if_false]
      cases h : firstMatchIdx from_packet_id rest with
      | none => simp
      | some i => simp

theorem filter_isAck_map_frameSent (l : List (List Nat)) :
    (l.map Event.frameSent).filter isAckEvent = [] := by
  induction l with
  | nil => rfl
  | cons x xs ih => simp [isAckEvent, ih]

/-- C1 (amended): a retransmit request for sequence N resends the slot at the
first buffer index whose retained sequence equals N together with every
retained slot at an equal or later buffer index, in index order and regardless
of those slots' sequence values; retained slots at earlier indices are not
resent; if no retained slot matches, nothing is resent.  One ACK follows. -/
theorem handleRetransmitRequest_resend_set (s : State) (from_packet_id sequence_to_ack : Nat) :
    (handleRetransmitRequest s from_packet_id sequence_to_ack).2 =
      (match firstMatchIdx from_packet_id s.sent_packets with
       | none => []
       | some i => (((s.sent_packets.drop i).filter (fun sl => sl.in_use)).map
           (fun sl => sl.data)).map Event.frameSent)
      ++ [Event.ackSent sequence_to_ack] := by
  unfold handleRetransmitRequest
  rw [retransmitResends_eq]
  cases h : firstMatchIdx from_packet_id s.sent_packets with
  | none => simp
  | some i => simp

/-- C1 is false as stated: in `retransmitCexState` a retransmit request for
sequence 2 does not resend the retained entry with sequence 101 (≥ 2),
because that entry is stored at an earlier index than the matching one. -/
theorem handleRetransmitRequest_not_cumulative :
    ¬ (∀ slot ∈ retransmitCexState.sent_packets, slot.in_use = true →
        2 ≤ slot.packet_id →
        Event.frameSent slot.data ∈ (handleRetransmitRequest retransmitCexState 2 7).2) := by
  decide

/-- C2: every retransmit request is answered with exactly one ACK, referencing
the peer's reported sequence, after the resend scan; when the requested
sequence is not retained, zero frames are resent and still exactly one ACK is
sent. -/
theorem handleRetransmitRequest_exactly_one_ack (s : State)
    (from_packet_id sequence_to_ack : Nat) :
    ((handleRetransmitRequest s from_packet_id sequence_to_ack).2.filter isAckEvent
       = [Event.ackSent sequence_to_ack]) ∧
    (firstMatchIdx from_packet_id s.sent_packets = none →
      (handleRetransmitRequest s from_packet_id sequence_to_ack).2
        = [Event.ackSent sequence_to_ack]) := by
  constructor
  · unfold handleRetransmitRequest
    simp [List.filter_append, filter_isAck_map_frameSent, isAckEvent]
  · intro h
    rw [handleRetransmitRequest_resend_set, h]
    simp

set_option maxRecDepth 8000 in
/-- Witness for C2 at a concrete input: the freshly constructed state retains
nothing, so a request for sequence 5 yields zero resends and exactly one ACK
for the peer sequence 7. -/
theorem handleRetransmitRequest_exactly_one_ack_witness :
    (handleRetransmitRequest constructedState 5 7).2 = [Event.ackSent 7] := by
  exact (handleRetransmitRequest_exactly_one_ack constructedState 5 7).2 (by decide)

/-- C3 (code bug): `ATEM::disconnect` only writes `ATEM_DISCONNECTED` when the
current state is `ATEM_CONNECTED`; from `ATEM_ERROR` or `ATEM_CONNECTING` the
connection state is left unchanged, contradicting the claim (and the
function's own documentation). -/
theorem disconnect_leaves_error_unchanged :
    (disconnect errorState).1.connection_state = ConnState.error ∧
    ConnState.error ≠ ConnState.disconnected ∧
    (disconnect { constructedState with
        connection_state := ConnState.connecting }).1.connection_state
      = ConnState.connecting ∧
    (disconnect { constructedState with
        connection_state := ConnState.connected }).1.connection_state
      = ConnState.disconnected := by
  refine ⟨rfl, by decide, rfl, rfl⟩

theorem commandBlocks_mem_bounds (data : List Nat) :
    ∀ (n offset : Nat), data.length - offset ≤ n →
      ∀ blk ∈ commandBlocks data offset,
        8 ≤ blk.2 ∧ blk.1 + 8 ≤ data.length ∧ blk.1 + blk.2 ≤ data.length := by
  intro n
  induction n with
  | zero =>
    intro offset hle blk hmem
    rw [commandBlocks] at hmem
    split at hmem
    · omega
    · simp at hmem
  | succ n ih =>
    intro offset hle blk hmem
    rw [commandBlocks] at hmem
    split at hmem
    case isTrue h1 =>
      split at hmem
      case isTrue h2 => simp at hmem
      case isFalse h2 =>
        split at hmem
        case isTrue h3 => simp at hmem
        case isFalse h3 =>
          rcases List.mem_cons.mp hmem with h | h
          · subst h
            refine ⟨by omega, by omega, by omega⟩
          · exact ih (offset + (data.getD offset 0 * 256 + data.getD (offset + 1) 0))
              (by omega) blk h
    case isFalse h1 => simp at hmem

/-- C5: the command-block loop of `ATEM::processInitialPayload` halts safely:
every block it visits has a declared length of at least 8 and lies entirely
inside the payload buffer (so no read goes out of bounds), and the loop stops
— processing nothing further — when fewer than 8 bytes remain, when a declared
length is below 8, and when a declared length would extend past the end of the
buffer. -/
theorem commandBlocks_halts_safely (data : List Nat) (offset : Nat) :
    (∀ blk ∈ commandBlocks data offset,
        8 ≤ blk.2 ∧ blk.1 + 8 ≤ data.length ∧ blk.1 + blk.2 ≤ data.length) ∧
    (data.length < offset + 8 → commandBlocks data offset = []) ∧
    (offset + 8 ≤ data.length →
      data.getD offset 0 * 256 + data.getD (offset + 1) 0 < 8 →
      commandBlocks data offset = []) ∧
    (offset + 8 ≤ data.length →
      data.length < offset + (data.getD offset 0 * 256 + data.getD (offset + 1) 0) →
      commandBlocks data offset = []) := by
  refine ⟨fun blk hmem =>
    commandBlocks_mem_bounds data (data.length - offset) offset le_rfl blk hmem, ?_, ?_, ?_⟩
  · intro h
    rw [commandBlocks]
    rw [dif_neg (by omega)]
  · intro h1 h2
    rw [commandBlocks]
    rw [dif_pos h1, dif_pos h2]
  · intro h1 h3
    rw [commandBlocks]
    rw [dif_pos h1, dif_neg (by omega), dif_pos h3]

/-- Witness for C5 at concrete inputs: an 8-byte buffer whose declared command
length 4 is below 8 stops the loop at once, and a 24-byte `PrgI` block inside
a 24-byte buffer is visited with in-bounds extent. -/
theorem commandBlocks_halts_safely_witness :
    commandBlocks [0, 4, 0, 0, 0x50, 0x72, 0x67, 0x49] 0 = [] ∧
    (8 ≤ (0 : Nat) + 12 ∧ (0 : Nat) + 8 ≤ 12 ∧ (0 : Nat) + 12 ≤ 12) := by
  constructor
  · exact (commandBlocks_halts_safely [0, 4, 0, 0, 0x50, 0x72, 0x67, 0x49] 0).2.2.1
      (by decide) (by decide)
  · have h := (commandBlocks_halts_safely
      [0, 12, 0, 0, 0x50, 0x72, 0x67, 0x49, 0, 0, 0, 3] 0).1
    have hm : ((0 : Nat), (12 : Nat)) ∈
        commandBlocks [0, 12, 0, 0, 0x50, 0x72, 0x67, 0x49, 0, 0, 0, 3] 0 := by
      simp [commandBlocks]
    exact h (0, 12) hm

theorem processProgramInput_events (s : State) (data : List Nat) (e : Event)
    (he : e ∈ (processProgramInput s data).2) : isInputEvent e = true := by
  unfold processProgramInput at he
  split at he
  · simp at he
  · split at he
    · simp at he
      subst he
      rfl
    · simp at he

theorem processPreviewInput_events (s : State) (data : List Nat) (e : Event)
    (he : e ∈ (processPreviewInput s data).2) : isInputEvent e = true := by
  unfold processPreviewInput at he
  split at he
  · simp at he
  · split at he
    · simp at he
      subst he
      rfl
    · simp at he

theorem processCommandAt_events (data : List Nat) (s : State) (blk : Nat × Nat) (e : Event)
    (he : e ∈ (processCommandAt data s blk).2) : isInputEvent e = true := by
  unfold processCommandAt at he
  split at he
  · exact processProgramInput_events _ _ _ he
  · split at he
    · exact processPreviewInput_events _ _ _ he
    · simp at he

theorem processCommandAt_fields (data : List Nat) (s : State) (blk : Nat × Nat) :
    (processCommandAt data s blk).1.connection_state = s.connection_state ∧
    (processCommandAt data s blk).1.session_id = s.session_id ∧
    (processCommandAt data s blk).1.remote_packet_id = s.remote_packet_id := by
  unfold processCommandAt processProgramInput processPreviewInput
  refine ⟨?_, ?_, ?_⟩ <;> (repeat' split) <;> rfl

theorem processInitialPayload_foldl_events (data : List Nat) (blocks : List (Nat × Nat)) :
    ∀ (acc : State × List Event) (e : Event),
      e ∈ (blocks.foldl (fun acc blk =>
          ((processCommandAt data acc.1 blk).1,
           acc.2 ++ (processCommandAt data acc.1 blk).2)) acc).2 →
      e ∈ acc.2 ∨ isInputEvent e = true := by
  induction blocks with
  | nil =>
    intro acc e he
    exact Or.inl he
  | cons blk rest ih =>
    intro acc e he
    rw [List.foldl_cons] at he
    rcases ih _ e he with h | h
    · rcases List.mem_append.mp h with h | h
      · exact Or.inl h
      · exact Or.inr (processCommandAt_events data acc.1 blk e h)
    · exact Or.inr h

theorem processInitialPayload_events (s : State) (data : List Nat) (e : Event)
    (he : e ∈ (processInitialPayload s data).2) : isInputEvent e = true := by
  rcases processInitialPayload_foldl_events data (commandBlocks data 0) (s, []) e he with h | h
  · simp at h
  · exact h

theorem processInitialPayload_foldl_fields (data : List Nat) (blocks : List (Nat × Nat)) :
    ∀ acc : State × List Event,
      (blocks.foldl (fun acc blk =>
          ((processCommandAt data acc.1 blk).1,
           acc.2 ++ (processCommandAt data acc.1 blk).2)) acc).1.connection_state
        = acc.1.connection_state ∧
      (blocks.foldl (fun acc blk =>
          ((processCommandAt data acc.1 blk).1,
           acc.2 ++ (processCommandAt data acc.1 blk).2)) acc).1.session_id
        = acc.1.session_id ∧
      (blocks.foldl (fun acc blk =>
          ((processCommandAt data acc.1 blk).1,
           acc.2 ++ (processCommandAt data acc.1 blk).2)) acc).1.remote_packet_id
        = acc.1.remote_packet_id := by
  induction blocks with
  | nil =>
    intro acc
    exact ⟨rfl, rfl, rfl⟩
  | cons blk rest ih =>
    intro acc
    rw [List.foldl_cons]
    refine ⟨?_, ?_, ?_⟩
    · rw [(ih _).1]
      exact (processCommandAt_fields data acc.1 blk).1
    · rw [(ih _).2.1]
      exact (processCommandAt_fields data acc.1 blk).2.1
    · rw [(ih _).2.2]
      exact (processCommandAt_fields data acc.1 blk).2.2

theorem processInitialPayload_fields (s : State) (data : List Nat) :
    (processInitialPayload s data).1.connection_state = s.connection_state ∧
    (processInitialPayload s data).1.session_id = s.session_id ∧
    (processInitialPayload s data).1.remote_packet_id = s.remote_packet_id := by
  exact processInitialPayload_foldl_fields data (commandBlocks data 0) (s, [])

theorem handleRetransmitRequest_state (s : State) (a b : Nat) :
    (handleRetransmitRequest s a b).1 = s := rfl

theorem handleRetransmitRequest_events (s : State) (a b : Nat) :
    (handleRetransmitRequest s a b).2 =
      (retransmitResends a false s.sent_packets).map Event.frameSent
        ++ [Event.ackSent b] := rfl

theorem parsePacket_no_conn_event (s : State) (now : Nat) (buffer : List Nat) (st : ConnState) :
    Event.connectionStateChanged st ∉ (parsePacket s now buffer).2 := by
  intro hmem
  simp only [parsePacket] at hmem
  split at hmem
  · simp at hmem
  · split at hmem
    · split at hmem
      · simp at hmem
      · simp at hmem
    · split at hmem
      · rw [handleRetransmitRequest_events] at hmem
        rcases List.mem_append.mp hmem with hx | hx
        · rcases List.mem_map.mp hx with ⟨bytes, _, hEq⟩
          simp at hEq
        · simp at hx
      · rcases List.mem_append.mp hmem with hx | hx
        · split at hx <;> simp at hx
        · split at hx
          · have hinput := processInitialPayload_events _ _ _ hx
            simp [isInputEvent] at hinput
          · simp at hx

theorem parsePacket_conn_shape (s : State) (now : Nat) (buffer : List Nat)
    (h : ¬(s.connection_state = ConnState.connecting ∧ (buffer.getD 0 0 / 8) &&& 2 ≠ 0)) :
    (parsePacket s now buffer).1.connection_state = s.connection_state := by
  by_cases hl : buffer.length < HEADER_SIZE
  · simp only [parsePacket]
    rw [if_pos hl]
  · simp only [parsePacket]
    rw [if_neg hl, if_neg h]
    split
    · repeat' split
      all_goals rfl
    · split
      · rw [(processInitialPayload_fields _ _).1]
        repeat' split
        all_goals rfl
      · repeat' split
        all_goals rfl

theorem parsePacket_session_shape (s : State) (now : Nat) (buffer : List Nat)
    (h : ¬(s.connection_state = ConnState.connecting ∧ (buffer.getD 0 0 / 8) &&& 2 ≠ 0))
    (hl : ¬ buffer.length < HEADER_SIZE) :
    (parsePacket s now buffer).1.session_id =
      (if s.connection_state = ConnState.connected ∧
          buffer.getD 2 0 * 256 + buffer.getD 3 0 ≠ s.session_id
       then buffer.getD 2 0 * 256 + buffer.getD 3 0 else s.session_id) := by
  simp only [parsePacket]
  rw [if_neg hl, if_neg h]
  split
  case isTrue hr =>
    repeat' split
    all_goals rfl
  case isFalse hr =>
    split
    · rw [(processInitialPayload_fields _ _).2.1]
      repeat' split
      all_goals rfl
    · repeat' split
      all_goals rfl

/-- C6 (amended): outside the Connecting-handshake success branch (state
`ATEM_CONNECTING` with the NewSessionId flag set), processing an inbound frame
never decreases the stored remote sequence tracker.  In the handshake success
branch the tracker is overwritten with the response's reported sequence, which
can decrease it — see the counterexample. -/
theorem parsePacket_remote_monotone (s : State) (now : Nat) (buffer : List Nat)
    (h : ¬(s.connection_state = ConnState.connecting ∧ (buffer.getD 0 0 / 8) &&& 2 ≠ 0)) :
    s.remote_packet_id ≤ (parsePacket s now buffer).1.remote_packet_id := by
  by_cases hl : buffer.length < HEADER_SIZE
  · simp only [parsePacket]
    rw [if_pos hl]
  · simp only [parsePacket]
    rw [if_neg hl, if_neg h]
    split
    · repeat' split
      all_goals first | omega | (simp_all [handleRetransmitRequest]; omega) | simp_all [handleRetransmitRequest]
    · split
      · rw [(processInitialPayload_fields _ _).2.2]
        repeat' split
        all_goals first | omega | (simp_all; omega) | simp_all
      · repeat' split
        all_goals first | omega | (simp_all; omega) | simp_all

/-- Witness for C6 at a concrete input: a flag-less 12-byte frame reporting
remote sequence 5 processed from the freshly constructed (Disconnected) state
does not decrease the tracker. -/
theorem parsePacket_remote_monotone_witness :
    constructedState.remote_packet_id ≤
      (parsePacket constructedState 0
        [0x00, 0x0C, 0x53, 0xAB, 0, 0, 0, 0, 0, 0, 0, 5]).1.remote_packet_id := by
  exact parsePacket_remote_monotone constructedState 0 _ (by decide)

/-- C6 is false as stated: a NewSessionId handshake response (flag byte 0x10)
reporting remote sequence 3 overwrites the tracker from 500 down to 3
(ATEM.cpp:495-500), so the tracker is not never-decreasing. -/
theorem parsePacket_decreases_remote_in_handshake :
    (parsePacket handshakeDecreaseState 0
        [0x10, 0x14, 0x12, 0x34, 0, 0, 0, 0, 0, 0, 0, 3]).1.remote_packet_id = 3 ∧
    ¬ (handshakeDecreaseState.remote_packet_id ≤
        (parsePacket handshakeDecreaseState 0
          [0x10, 0x14, 0x12, 0x34, 0, 0, 0, 0, 0, 0, 0, 3]).1.remote_packet_id) := by
  decide

/-- C4: for an inbound frame of at least 12 bytes that is not a retransmit
request, processed outside the Connecting handshake, an ACK for the frame's
reported sequence (header bytes 10-11) is sent if and only if the frame
carries payload beyond the 12-byte header or carries the AckRequest flag. -/
theorem parsePacket_ack_policy (s : State) (now : Nat) (buffer : List Nat)
    (hl : 12 ≤ buffer.length)
    (hs : s.connection_state ≠ ConnState.connecting)
    (hr : (buffer.getD 0 0 / 8) &&& 8 = 0) :
    Event.ackSent (buffer.getD 10 0 * 256 + buffer.getD 11 0) ∈ (parsePacket s now buffer).2
      ↔ (12 < buffer.length ∨ (buffer.getD 0 0 / 8) &&& 1 ≠ 0) := by
  simp only [parsePacket]
  rw [if_neg (by simp only [HEADER_SIZE]; omega : ¬ buffer.length < HEADER_SIZE)]
  rw [if_neg (fun hc => hs hc.1)]
  rw [if_neg (fun hn => hn hr)]
  by_cases hcond : HEADER_SIZE < buffer.length ∨ (buffer.getD 0 0 / 8) &&& 1 ≠ 0
  · rw [if_pos hcond]
    constructor
    · intro _
      simpa [HEADER_SIZE] using hcond
    · intro _
      simp
  · rw [if_neg hcond]
    have hp : ¬ HEADER_SIZE < buffer.length := fun hp => hcond (Or.inl hp)
    rw [if_neg hp]
    constructor
    · intro hmem
      simp at hmem
    · intro hx
      exact absurd hx (by simpa [HEADER_SIZE] using hcond)

/-- Witness for C4 at a concrete input: a header-only frame with the
AckRequest flag (byte 0 = 0x08) and reported sequence 5 is acknowledged. -/
theorem parsePacket_ack_policy_witness :
    Event.ackSent 5 ∈
      (parsePacket connectedState 0 [0x08, 0x0C, 0x53, 0xAB, 0, 0, 0, 0, 0, 0, 0, 5]).2 := by
  exact (parsePacket_ack_policy connectedState 0 _ (by decide) (by decide) (by decide)).mpr
    (Or.inr (by decide))

/-- C10: while Connected, the session-id field (header bytes 2-3) of any
≥ 12-byte inbound frame silently replaces the stored session id: afterwards
the stored id equals the frame's, the connection state is still Connected, and
no connection-state-changed hook fires. -/
theorem parsePacket_adopts_session (s : State) (now : Nat) (buffer : List Nat)
    (hc : s.connection_state = ConnState.connected)
    (hl : 12 ≤ buffer.length) :
    ((parsePacket s now buffer).1.session_id = buffer.getD 2 0 * 256 + buffer.getD 3 0) ∧
    ((parsePacket s now buffer).1.connection_state = ConnState.connected) ∧
    (∀ st : ConnState, Event.connectionStateChanged st ∉ (parsePacket s now buffer).2) := by
  have hnc : ¬(s.connection_state = ConnState.connecting ∧
      (buffer.getD 0 0 / 8) &&& 2 ≠ 0) := by
    intro hx
    rw [hc] at hx
    exact absurd hx.1 (by decide)
  have hnl : ¬ buffer.length < HEADER_SIZE := by
    simp only [HEADER_SIZE]
    omega
  refine ⟨?_, ?_, fun st => parsePacket_no_conn_event s now buffer st⟩
  · rw [parsePacket_session_shape s now buffer hnc hnl]
    split
    · rfl
    case isFalse hx =>
      have hne : buffer.getD 2 0 * 256 + buffer.getD 3 0 = s.session_id := by
        by_contra hne
        exact hx ⟨hc, hne⟩
      exact hne.symm
  · rw [parsePacket_conn_shape s now buffer hnc]
    exact hc

/-- Witness for C10 at a concrete input: a flag-less header-only frame with
session id 0x1234 replaces the stored session id 0x53AB. -/
theorem parsePacket_adopts_session_witness :
    (parsePacket connectedState 0
        [0x00, 0x0C, 0x12, 0x34, 0, 0, 0, 0, 0, 0, 0, 0]).1.session_id = 0x1234 := by
  exact ((parsePacket_adopts_session connectedState 0 _ (by decide) (by decide)).1).trans
    (by decide)

theorem sendHeartbeat_fields (s : State) (now : Nat) :
    (sendHeartbeat s now).1.connection_state = s.connection_state ∧
    (sendHeartbeat s now).1.last_received = s.last_received ∧
    (sendHeartbeat s now).1.state_dirty = s.state_dirty := by
  exact ⟨rfl, rfl, rfl⟩

theorem processIncomingPacket_conn (s : State) (now : Nat) (dg : Option (List Nat))
    (h : s.connection_state ≠ ConnState.connecting) :
    (processIncomingPacket s now dg).1.connection_state = s.connection_state := by
  match dg with
  | none => rfl
  | some buffer =>
    simp only [processIncomingPacket]
    split
    · rfl
    · exact parsePacket_conn_shape _ now buffer (fun hx => h hx.1)

theorem processIncomingPacket_no_conn_event (s : State) (now : Nat)
    (dg : Option (List Nat)) (st : ConnState) :
    Event.connectionStateChanged st ∉ (processIncomingPacket s now dg).2 := by
  match dg with
  | none => simp [processIncomingPacket]
  | some buffer =>
    simp only [processIncomingPacket]
    split
    · simp
    · exact parsePacket_no_conn_event _ now buffer st

/-- C8: every outbound ACK frame places the acknowledged sequence at byte
offsets 4-5 (big-endian) with bytes 6-7 zero (and bytes 10-11 zero), while
heartbeat and data/command frames place the local sequence at byte offsets
10-11 (big-endian) with bytes 4-7 zero; the two layouts are never
interchanged.  `sendHeartbeat` and `changeProgramInput` (while connected)
transmit exactly the frames with the second layout. -/
theorem outbound_sequence_field_layout (s : State)
    (session_id packet_id local_packet_id input now : Nat) :
    ((ackPacket session_id packet_id).getD 4 0 = packet_id / 256 % 256 ∧
     (ackPacket session_id packet_id).getD 5 0 = packet_id % 256 ∧
     (ackPacket session_id packet_id).getD 6 0 = 0 ∧
     (ackPacket session_id packet_id).getD 7 0 = 0 ∧
     (ackPacket session_id packet_id).getD 10 0 = 0 ∧
     (ackPacket session_id packet_id).getD 11 0 = 0) ∧
    ((heartbeatPacket session_id local_packet_id).getD 10 0 = local_packet_id / 256 % 256 ∧
     (heartbeatPacket session_id local_packet_id).getD 11 0 = local_packet_id % 256 ∧
     (heartbeatPacket session_id local_packet_id).getD 4 0 = 0 ∧
     (heartbeatPacket session_id local_packet_id).getD 5 0 = 0 ∧
     (heartbeatPacket session_id local_packet_id).getD 6 0 = 0 ∧
     (heartbeatPacket session_id local_packet_id).getD 7 0 = 0) ∧
    ((changeProgramInputPacket session_id local_packet_id input).getD 10 0
        = local_packet_id / 256 % 256 ∧
     (changeProgramInputPacket session_id local_packet_id input).getD 11 0
        = local_packet_id % 256 ∧
     (changeProgramInputPacket session_id local_packet_id input).getD 4 0 = 0 ∧
     (changeProgramInputPacket session_id local_packet_id input).getD 5 0 = 0 ∧
     (changeProgramInputPacket session_id local_packet_id input).getD 6 0 = 0 ∧
     (changeProgramInputPacket session_id local_packet_id input).getD 7 0 = 0) ∧
    ((sendHeartbeat s now).2
        = [Event.frameSent (heartbeatPacket s.session_id s.local_packet_id)]) ∧
    (s.connection_state = ConnState.connected →
      (changeProgramInput s input now).2
        = [Event.frameSent (changeProgramInputPacket s.session_id s.local_packet_id input)]) := by
  refine ⟨⟨rfl, rfl, rfl, rfl, rfl, rfl⟩, ⟨rfl, rfl, rfl, rfl, rfl, rfl⟩,
    ⟨rfl, rfl, rfl, rfl, rfl, rfl⟩, rfl, ?_⟩
  intro hc
  unfold changeProgramInput
  rw [if_neg (fun hn => hn hc)]

/-- Witness for C8 at a concrete input: `changeProgramInput` from a connected
state transmits the 24-byte CPgI frame carrying the local sequence at bytes
10-11. -/
theorem outbound_sequence_field_layout_witness :
    (changeProgramInput connectedState 3 0).2
      = [Event.frameSent (changeProgramInputPacket connectedState.session_id
          connectedState.local_packet_id 3)] := by
  exact (outbound_sequence_field_layout connectedState 0 0 0 3 0).2.2.2.2 (by decide)

theorem parsePacket_handshake (s : State) (now : Nat) (buffer : List Nat)
    (hnl : ¬ buffer.length < HEADER_SIZE)
    (hcs : s.connection_state = ConnState.connecting)
    (hflag : (buffer.getD 0 0 / 8) &&& 2 ≠ 0) :
    parsePacket s now buffer =
      (if buffer.getD 10 0 * 256 + buffer.getD 11 0 > 0 then
        ({ s with session_id := buffer.getD 2 0 * 256 + buffer.getD 3 0,
                  connection_state := ConnState.connected,
                  last_heartbeat := now,
                  remote_packet_id := buffer.getD 10 0 * 256 + buffer.getD 11 0 },
         [Event.ackSent (buffer.getD 10 0 * 256 + buffer.getD 11 0)])
      else
        ({ s with session_id := buffer.getD 2 0 * 256 + buffer.getD 3 0,
                  connection_state := ConnState.connected,
                  last_heartbeat := now }, [])) := by
  rw [parsePacket, if_neg hnl, if_pos ⟨hcs, hflag⟩]

/-- C7: `connect()` transmits exactly one frame, the literal 20-byte HELLO,
and resets the local sequence counter to 1; if while Connecting a response
frame whose header carries the NewSessionId flag is received, then afterwards
the stored session id equals the response's header session id (bytes 2-3), the
local sequence counter is 1, the connection state is Connected, the
connection-state-changed hook fires, and an ACK for the response's reported
sequence (bytes 10-11) is sent when that sequence is non-zero. -/
theorem connect_handshake (s : State) (t0 t1 : Nat) (response : List Nat)
    (hlen : 12 ≤ response.length)
    (hflag : (response.getD 0 0 / 8) &&& 2 ≠ 0) :
    ((connectSend s t0).2 = [Event.frameSent helloPacket] ∧ helloPacket.length = 20) ∧
    ((connectPollStep (connectSend s t0).1 t1 (some response)).1.session_id
        = response.getD 2 0 * 256 + response.getD 3 0) ∧
    ((connectPollStep (connectSend s t0).1 t1 (some response)).1.local_packet_id = 1) ∧
    ((connectPollStep (connectSend s t0).1 t1 (some response)).1.connection_state
        = ConnState.connected) ∧
    (Event.connectionStateChanged ConnState.connected
        ∈ (connectPollStep (connectSend s t0).1 t1 (some response)).2) ∧
    (response.getD 10 0 * 256 + response.getD 11 0 ≠ 0 →
      Event.ackSent (response.getD 10 0 * 256 + response.getD 11 0)
        ∈ (connectPollStep (connectSend s t0).1 t1 (some response)).2) := by
  have hnl : ¬ response.length < HEADER_SIZE := by
    simp only [HEADER_SIZE]
    omega
  have hps := parsePacket_handshake { (connectSend s t0).1 with last_received := t1 }
    t1 response hnl rfl hflag
  rw [connectPollStep, processIncomingPacket, if_neg hnl, hps]
  by_cases hrem : response.getD 10 0 * 256 + response.getD 11 0 > 0
  · rw [if_pos hrem]
    split
    · refine ⟨⟨rfl, rfl⟩, rfl, rfl, rfl, by simp, fun _ => by simp⟩
    · rename_i hpoll
      exact absurd rfl hpoll
  · rw [if_neg hrem]
    split
    · refine ⟨⟨rfl, rfl⟩, rfl, rfl, rfl, by simp, fun hx => absurd (by omega) hrem⟩
    · rename_i hpoll
      exact absurd rfl hpoll

/-- Witness for C7 at the spec's synthetic response: session id 0x1234,
NewSessionId flag set (byte 0 = 0x10), reported remote sequence 5. -/
theorem connect_handshake_witness :
    ((connectPollStep (connectSend constructedState 0).1 1
        [0x10, 0x14, 0x12, 0x34, 0, 0, 0, 0, 0, 0, 0, 5]).1.session_id = 0x1234) ∧
    ((connectPollStep (connectSend constructedState 0).1 1
        [0x10, 0x14, 0x12, 0x34, 0, 0, 0, 0, 0, 0, 0, 5]).1.connection_state
      = ConnState.connected) ∧
    Event.ackSent 5 ∈ (connectPollStep (connectSend constructedState 0).1 1
        [0x10, 0x14, 0x12, 0x34, 0, 0, 0, 0, 0, 0, 0, 5]).2 := by
  have h := connect_handshake constructedState 0 1
    [0x10, 0x14, 0x12, 0x34, 0, 0, 0, 0, 0, 0, 0, 5] (by decide) (by decide)
  exact ⟨h.2.1, h.2.2.2.1, h.2.2.2.2.2 (by decide)⟩

/-- C9: a tick while Connected with inbound silence exceeding the connection
timeout transitions to Error and fires connection-state-changed(Error) exactly
once; every tick taken from the Error state leaves the state Error and never
fires the hook again. -/
theorem runLoop_timeout_fires_once (s : State) (now : Nat)
    (hc : s.connection_state = ConnState.connected)
    (ht : CONNECTION_TIMEOUT < usub32 now s.last_received) :
    ((runLoop s now none).1.connection_state = ConnState.error) ∧
    ((runLoop s now none).2.count (Event.connectionStateChanged ConnState.error) = 1) ∧
    (∀ (s2 : State) (now2 : Nat) (datagram : Option (List Nat)),
      s2.connection_state = ConnState.error →
        ((runLoop s2 now2 datagram).1.connection_state = ConnState.error ∧
         Event.connectionStateChanged ConnState.error ∉ (runLoop s2 now2 datagram).2)) := by
  refine ⟨?_, ?_, ?_⟩
  · simp only [runLoop, processIncomingPacket]
    split
    · split
      · split <;> rfl
      case isFalse h2 => exact absurd ⟨(sendHeartbeat_fields s now).1.trans hc,
          by rw [show ({ (sendHeartbeat s now).1 with last_heartbeat := now } :
            State).last_received = (sendHeartbeat s now).1.last_received from rfl,
            (sendHeartbeat_fields s now).2.1]; exact ht⟩ h2
    · split
      · split <;> rfl
      case isFalse h2 => exact absurd ⟨hc, ht⟩ h2
  · simp only [runLoop, processIncomingPacket]
    split
    · split
      case isTrue h2 =>
        split <;> simp [sendHeartbeat, List.count_append, List.count_cons]
      case isFalse h2 => exact absurd ⟨(sendHeartbeat_fields s now).1.trans hc,
          by rw [show ({ (sendHeartbeat s now).1 with last_heartbeat := now } :
            State).last_received = (sendHeartbeat s now).1.last_received from rfl,
            (sendHeartbeat_fields s now).2.1]; exact ht⟩ h2
    · split
      case isTrue h2 =>
        split <;> simp [List.count_append, List.count_cons]
      case isFalse h2 => exact absurd ⟨hc, ht⟩ h2
  · intro s2 now2 datagram h2
    have hpc : (processIncomingPacket s2 now2 datagram).1.connection_state
        = ConnState.error :=
      (processIncomingPacket_conn s2 now2 datagram (by rw [h2]; exact (by decide))).trans h2
    constructor
    · simp only [runLoop]
      split
      case isTrue hcond => exact absurd (hcond.1.symm.trans hpc) (by decide)
      case isFalse hcond =>
        split
        case isTrue hcond2 => exact absurd (hcond2.1.symm.trans hpc) (by decide)
        case isFalse hcond2 =>
          split <;> exact hpc
    · intro hmem
      simp only [runLoop] at hmem
      split at hmem
      case isTrue hcond => exact absurd (hcond.1.symm.trans hpc) (by decide)
      case isFalse hcond =>
        split at hmem
        case isTrue hcond2 => exact absurd (hcond2.1.symm.trans hpc) (by decide)
        case isFalse hcond2 =>
          split at hmem <;>
            (rcases List.mem_append.mp hmem with hx | hx
             · rcases List.mem_append.mp hx with hy | hy
               · rcases List.mem_append.mp hy with hz | hz
                 · exact processIncomingPacket_no_conn_event s2 now2 datagram _ hz
                 · simp at hz
               · simp at hy
             · simp at hx)

/-- Witness for C9 at a concrete input: a connected client last heard from the
peer at time 0; a tick at time 6000 (past the 5000 ms timeout) moves it to
Error with exactly one hook invocation, and a further tick at 7000 from the
resulting Error state fires nothing. -/
theorem runLoop_timeout_fires_once_witness :
    ((runLoop connectedState 6000 none).1.connection_state = ConnState.error) ∧
    ((runLoop connectedState 6000 none).2.count
        (Event.connectionStateChanged ConnState.error) = 1) ∧
    ((runLoop errorState 7000 none).1.connection_state = ConnState.error ∧
     Event.connectionStateChanged ConnState.error ∉ (runLoop errorState 7000 none).2) := by
  have h := runLoop_timeout_fires_once connectedState 6000 (by decide) (by decide)
  exact ⟨h.1, h.2.1, h.2.2 errorState 7000 none (by decide)⟩

end ATEM
